import Mathlib

/-!
Verification development for the ScaledMarkets docker registry client
(Docker Registry v2 protocol client, Go).  The definitions below are a
shallow embedding of the registry-client code: the dynamic JSON values
that Go's json.Unmarshal produces become an inductive JsonVal, HTTP
responses become records of status code, status text, headers and body,
and each Go function that the claims mention is translated into a Lean
function over those types, following the Go control flow line by line.
External collaborators (the utilities and rest packages, and net/http
read-after-close behavior) are modelled from the specification and the
documented library behavior, and are marked as such in doc comments.
-/

/-- Dynamic JSON value, the shallow embedding of what Go's
json.Unmarshal into interface\x7b\x7d yields: objects become association
lists, arrays become lists, and JSON numbers become a numeric leaf
(Go would produce float64; the claims only need integer literals). -/
inductive JsonVal where
  | null : JsonVal
  | boolean (b : Bool) : JsonVal
  | num (n : Int) : JsonVal
  | str (s : String) : JsonVal
  | arr (elems : List JsonVal) : JsonVal
  | obj (fields : List (String × JsonVal)) : JsonVal

/-- Name of the Go dynamic type of an unmarshalled JSON value, as
reflect.TypeOf(v).String() would print it; used to mirror the error
messages the source builds from reflect. -/
def jsonTypeName : JsonVal → String
  | JsonVal.null => "<nil>"
  | JsonVal.boolean _ => "bool"
  | JsonVal.num _ => "float64"
  | JsonVal.str _ => "string"
  | JsonVal.arr _ => "[]interface \x7b\x7d"
  | JsonVal.obj _ => "map[string]interface \x7b\x7d"

/-- Lookup in a Go map[string]interface\x7b\x7d built from a JSON object:
indexing a missing key yields the nil interface.  A JSON null field also
unmarshals to the nil interface, so it is identified with a missing key,
exactly as a Go nil-check on the indexed value behaves. -/
def goMapIndex (fields : List (String × JsonVal)) (key : String) : Option JsonVal :=
  match fields.find? (fun p => p.1 == key) with
  | some (_, JsonVal.null) => none
  | some (_, v) => some v
  | none => none

/-- Errors produced by the client: a registry error carrying the HTTP
status code and reason text (utils.GenerateError), or a constructed
server error carrying a message (utils.ConstructServerError). -/
inductive GoError where
  | regErr (statusCode : Nat) (msg : String) : GoError
  | serverErr (msg : String) : GoError
deriving DecidableEq, Repr

/-- Modelled from the spec: utils.GenerateError (external utilities
package) returns nil for a success HTTP status and otherwise an error
carrying the status code and the given reason text ("any other
non-success status maps to a RegistryError carrying the status and
reason text"). -/
def GenerateError (statusCode : Nat) (msg : String) : Option GoError :=
  if 200 ≤ statusCode ∧ statusCode ≤ 299 then none
  else some (GoError.regErr statusCode msg)

/-- Modelled from the spec: utils.ConstructServerError wraps a message
into an error value. -/
def ConstructServerError (msg : String) : GoError := GoError.serverErr msg

/-- An HTTP response body as the client sees it: the JSON value it
decodes to, plus whether the body reader has already been closed
(net/http: reading a closed response body fails). -/
structure RespBody where
  json : JsonVal
  closed : Bool

/-- An HTTP response: status code, status text (as in Go's
response.Status, e.g. "404 Not Found"), header map and body. -/
structure HttpResponse where
  statusCode : Nat
  status : String
  headers : List (String × List String)
  body : RespBody

/-- Indexing a Go http.Header map: a missing key yields the nil slice,
embedded as the empty list. -/
def goHeaderIndex (headers : List (String × List String)) (name : String) : List String :=
  match headers.find? (fun p => p.1 == name) with
  | some (_, vs) => vs
  | none => []

/-- Modelled from the spec: rest.ParseResponseBodyToMap (external rest
package) reads the whole response body and JSON-decodes it into a
string-keyed map.  Reading an already-closed body fails with the
net/http read-after-close error, and a body that is not a JSON object
fails to decode to a map. -/
def ParseResponseBodyToMap (body : RespBody) : Except GoError (List (String × JsonVal)) :=
  if body.closed then Except.error (GoError.serverErr "http: read on closed response body")
  else match body.json with
    | JsonVal.obj fields => Except.ok fields
    | v => Except.error (GoError.serverErr ("response body is not a JSON object - it is a " ++ jsonTypeName v))

/-- Loop body of parseManifest: each element of the fsLayers array must
be a JSON object (a map); the first non-object element aborts with the
reflect-based error message, and object elements are collected in array
order. -/
def collectLayerMaps : List JsonVal → Except GoError (List (List (String × JsonVal)))
  | [] => Except.ok []
  | JsonVal.obj m :: rest =>
      match collectLayerMaps rest with
      | Except.error e => Except.error e
      | Except.ok ms => Except.ok (m :: ms)
  | v :: _ => Except.error (ConstructServerError ("Type of layer object is " ++ jsonTypeName v))

/-- Embedding of parseManifest (registry client source): decode the body
to a map, require an fsLayers field, require it to be an array, and
require every element to be an object.  No field of the individual layer
objects (in particular blobSum) is inspected here. -/
def parseManifest (body : RespBody) : Except GoError (List (List (String × JsonVal))) :=
  match ParseResponseBodyToMap body with
  | Except.error e => Except.error e
  | Except.ok responseMap =>
    match goMapIndex responseMap "fsLayers" with
    | none => Except.error (ConstructServerError "Did not find fsLayers field in body")
    | some (JsonVal.arr layerArObj) => collectLayerMaps layerArObj
    | some v => Except.error (ConstructServerError ("Type of layer description is " ++ jsonTypeName v))

/-- Character class of the Go regular expression the source validator
actually compiles: lowercase letters, digits, dash and underscore. -/
def goNameClassChar (c : Char) : Bool :=
  (('a' ≤ c && c ≤ 'z') || ('0' ≤ c && c ≤ '9') || c == '-' || c == '_')

/-- Embedding of regexp.MatchString on the source pattern: the pattern
anchors the whole string and allows any number (including zero) of
characters of the class above. -/
def goNameRegexMatches (part : String) : Bool :=
  part.toList.all goNameClassChar

/-- Embedding of NamePartConformsToDockerRules (DockerServices.go):
returns nil when the compiled pattern matches the part, and the
constructed error otherwise. -/
def NamePartConformsToDockerRules (part : String) : Option GoError :=
  if goNameRegexMatches part then none
  else some (ConstructServerError "Name does not conform to docker rules")

/-- Lowercase-alphanumeric character of the documented docker name rule. -/
def alnumLower (c : Char) : Bool :=
  ('a' ≤ c && c ≤ 'z') || ('0' ≤ c && c ≤ '9')

/-- Separator character of the documented docker name rule. -/
def dockerSepChar (c : Char) : Bool :=
  c == '.' || c == '_' || c == '-'

/-- Deterministic automaton for the documented component pattern, read
after its first character: state true means the previous character was
alphanumeric (accepting), state false means it was a separator (an
alphanumeric character must follow). -/
def dockerNameDFA : Bool → List Char → Bool
  | true, [] => true
  | false, [] => false
  | true, c :: rest =>
      if alnumLower c then dockerNameDFA true rest
      else if dockerSepChar c then dockerNameDFA false rest
      else false
  | false, c :: rest =>
      if alnumLower c then dockerNameDFA true rest
      else false

/-- Language of the documented per-component regular expression: one or
more lowercase-alphanumeric runs, adjacent runs separated by exactly one
period, underscore or dash. -/
def componentMatchesDockerRegex (cs : List Char) : Bool :=
  match cs with
  | [] => false
  | c :: rest => alnumLower c && dockerNameDFA true rest

/-- Split a character list on the slash separator, keeping empty
components, as the spec's slash-separated decomposition requires. -/
def splitOnSlash : List Char → List (List Char)
  | [] => [[]]
  | c :: rest =>
      if c == '/' then [] :: splitOnSlash rest
      else match splitOnSlash rest with
        | [] => [[c]]
        | g :: gs => (c :: g) :: gs

/-- Acceptance predicate written from the spec and the source doc
comment: a repository name is a slash-separated sequence of components
each in the documented component language, with total length below 256
characters. -/
def dockerNameSpecAccepts (name : String) : Bool :=
  decide (name.length < 256) && (splitOnSlash name.toList).all componentMatchesDockerRegex

/-- Embedding of ImageExists (registry client source), applied to the
response of the HEAD request on the manifest path: 404 yields false
without error, any other non-success status yields the generated error,
success yields true.  The returned pair mirrors the Go (bool, error)
result. -/
def ImageExists (response : HttpResponse) : Bool × Option GoError :=
  if response.statusCode == 404 then (false, none)
  else match GenerateError response.statusCode (response.status ++ "; while checking if image exists") with
    | some e => (false, some e)
    | none => (true, none)

/-- URI of the manifest existence probe, as ImageExists builds it. -/
def imageExistsUri (repoName tag : String) : String :=
  "v2/" ++ repoName ++ "/manifests/" ++ tag

/-- Embedding of LayerExistsInRepo (registry client source), applied to
the response of the HEAD request on the blob path; same shape as
ImageExists with the layer-specific reason text. -/
def LayerExistsInRepo (response : HttpResponse) : Bool × Option GoError :=
  if response.statusCode == 404 then (false, none)
  else match GenerateError response.statusCode (response.status ++ "; while checking if layer exists") with
    | some e => (false, some e)
    | none => (true, none)

/-- URI of the blob existence probe, as LayerExistsInRepo builds it. -/
def layerExistsUri (repoName digest : String) : String :=
  "v2/" ++ repoName ++ "/blobs/" ++ digest

/-- Outcome of GetImageInfo: the normal (digest, layer array) return, an
error return, or a Go runtime panic (the source indexes the
Docker-Content-Digest header slice without a bounds check, so a missing
header is a crash, not a return). -/
inductive GetImageInfoOutcome where
  | ok (digest : String) (layerAr : List (List (String × JsonVal))) : GetImageInfoOutcome
  | err (e : GoError) : GetImageInfoOutcome
  | crash (msg : String) : GetImageInfoOutcome

/-- Embedding of GetImageInfo (registry client source), applied to the
response of the manifest GET: check the status, parse the manifest body
(still open at that point), then take element 0 of the
Docker-Content-Digest header slice.  When the header is absent the
indexed slice is nil and Go panics with an index-out-of-range runtime
error. -/
def GetImageInfo (resp : HttpResponse) : GetImageInfoOutcome :=
  match GenerateError resp.statusCode (resp.status ++ "; while getting image info") with
  | some e => GetImageInfoOutcome.err e
  | none =>
    match parseManifest resp.body with
    | Except.error e => GetImageInfoOutcome.err e
    | Except.ok layerAr =>
      match goHeaderIndex resp.headers "Docker-Content-Digest" with
      | [] => GetImageInfoOutcome.crash "runtime error: index out of range"
      | d :: _ => GetImageInfoOutcome.ok d layerAr

/-- A request actually sent on the wire, remembered as method and URI;
used to trace which calls an operation performs. -/
structure SentRequest where
  method : String
  uri : String
deriving DecidableEq, Repr

/-- Responses the registry would give to the requests DeleteImage can
send: the manifest GET, each layer blob DELETE (by position), and the
final manifest DELETE. -/
structure DeleteImageEnv where
  manifestGet : HttpResponse
  layerDelete : Nat → HttpResponse
  manifestDelete : HttpResponse

/-- Loop body of DeleteImage over the parsed layer array: for each layer
object, require a blobSum string (errors mirror the source messages),
then send the blob DELETE and check its status.  Returns the requests
sent and either the first error or unit. -/
def deleteLayersLoop (repoName : String) (env : DeleteImageEnv) :
    List (List (String × JsonVal)) → Nat → List SentRequest × Except GoError Unit
  | [], _ => ([], Except.ok ())
  | layerDesc :: rest, i =>
    match goMapIndex layerDesc "blobSum" with
    | none => ([], Except.error (ConstructServerError "Did not find blobSum field in response for layer"))
    | some (JsonVal.str digest) =>
      let req : SentRequest := ⟨"DELETE", "v2/" ++ repoName ++ "/blobs/" ++ digest⟩
      let response := env.layerDelete i
      (match GenerateError response.statusCode (response.status ++ "; while deleting layer") with
       | some e => ([req], Except.error e)
       | none =>
         match deleteLayersLoop repoName env rest (i + 1) with
         | (reqs, r) => (req :: reqs, r))
    | some v => ([], Except.error (ConstructServerError ("blogSum field is not a string - it is a " ++ jsonTypeName v)))

/-- Embedding of DeleteImage (registry client source): GET the manifest,
close its body, check the GET status, then parse the (already closed)
body; on success of the parse, delete each layer and finally send the
manifest DELETE, whose status is not checked.  Returns the trace of sent
requests and the result. -/
def DeleteImage (repoName tag : String) (env : DeleteImageEnv) :
    List SentRequest × Except GoError Unit :=
  let getReq : SentRequest := ⟨"GET", "v2/" ++ repoName ++ "/manifests/" ++ tag⟩
  let resp := env.manifestGet
  let closedBody : RespBody := ⟨resp.body.json, true⟩
  match GenerateError resp.statusCode (resp.status ++ "; while deleting image") with
  | some e => ([getReq], Except.error e)
  | none =>
    match parseManifest closedBody with
    | Except.error e => ([getReq], Except.error e)
    | Except.ok layerAr =>
      match deleteLayersLoop repoName env layerAr 0 with
      | (reqs, Except.error e) => (getReq :: reqs, Except.error e)
      | (reqs, Except.ok ()) =>
        let delReq : SentRequest := ⟨"DELETE", "v2/" ++ repoName ++ "/manifests/" ++ tag⟩
        (getReq :: reqs ++ [delReq], Except.ok ())

/-- True exactly when an Except value is an error. -/
def exceptIsError {α β : Type} : Except α β → Bool
  | Except.error _ => true
  | Except.ok _ => false

/-- Embedding of the repositories-index validation inside PushImage
(registry client source): the unmarshalled value must be an object with
exactly one repository entry, whose value must be an object with exactly
one tag entry, whose value must be a string (the image digest).  The
error messages mirror the source. -/
def parseRepositoriesIndex (v : JsonVal) : Except GoError String :=
  match v with
  | JsonVal.obj repositoriesMap =>
    (match repositoriesMap with
     | [] => Except.error (ConstructServerError "No entries found in repository map for image")
     | _ :: _ :: _ => Except.error (ConstructServerError "More than one entry found in repository map for image")
     | [(_, tagObj)] =>
       match tagObj with
       | JsonVal.obj tagMap =>
         (match tagMap with
          | [] => Except.error (ConstructServerError "No entries found in tag map for repo")
          | _ :: _ :: _ => Except.error (ConstructServerError "More than one entry found in tag map for repo")
          | [(_, JsonVal.str tagDigest)] => Except.ok tagDigest
          | [(_, _)] => Except.error (ConstructServerError "Digest is not a string"))
       | _ => Except.error (ConstructServerError "repository json does not translate to a map[string]interface"))
  | _ => Except.error (ConstructServerError "repositories file json does not translate to a map[string]interface")

/-- Results this PushImage call would get from its collaborators: the
outcome of PushLayer for each layer file (by position) and the outcome
of the final PushManifest call. -/
structure PushImageEnv where
  layerPush : Nat → Except GoError String
  manifestPush : Except GoError Unit

/-- Outcome of the PushImage tail: the returned error or success, and
whether os.RemoveAll was run on the temporary staging directory (the
deferred removal in the source is commented out, so removal happens only
on the success return). -/
structure PushImageOutcome where
  result : Except GoError Unit
  tempDirRemoved : Bool

/-- Loop of PushImage over the scratch-directory entries: the entry
named repositories is skipped, every other entry contributes one
PushLayer call whose digest is collected in iteration order. -/
def pushLayersLoop (env : PushImageEnv) : List String → Nat → Except GoError (List String)
  | [], _ => Except.ok []
  | layerFilename :: rest, i =>
    if layerFilename == "repositories" then pushLayersLoop env rest i
    else match env.layerPush i with
      | Except.error e => Except.error e
      | Except.ok layerDigest =>
        match pushLayersLoop env rest (i + 1) with
        | Except.error e => Except.error e
        | Except.ok ds => Except.ok (layerDigest :: ds)

/-- Embedding of the tail of PushImage (registry client source), after
the tar unpack succeeded: validate the repositories index, push each
layer, push the manifest, and only then remove the staging directory.
Every error return leaves the staging directory in place, since the
deferred removal is commented out in the source. -/
def pushImageAfterUnpack (repositoriesJson : JsonVal) (layerFilenames : List String)
    (env : PushImageEnv) : PushImageOutcome :=
  match parseRepositoriesIndex repositoriesJson with
  | Except.error e => ⟨Except.error e, false⟩
  | Except.ok _imageDigest =>
    match pushLayersLoop env layerFilenames 0 with
    | Except.error e => ⟨Except.error e, false⟩
    | Except.ok _layerDigests =>
      match env.manifestPush with
      | Except.error e => ⟨Except.error e, false⟩
      | Except.ok () => ⟨Except.ok (), true⟩

/-- Byte encoding of a character under UTF-8, on Nat values below 256. -/
def utf8Bytes (c : Char) : List Nat :=
  let n := c.toNat
  if n < 128 then [n]
  else if n < 2048 then [192 + n / 64, 128 + n % 64]
  else if n < 65536 then [224 + n / 4096, 128 + (n / 64) % 64, 128 + n % 64]
  else [240 + n / 262144, 128 + (n / 4096) % 64, 128 + (n / 64) % 64, 128 + n % 64]

/-- Byte sequence of a Go string (UTF-8), as Go's []byte conversion and
len() see it. -/
def strBytes (s : String) : List Nat :=
  s.toList.foldr (fun c acc => utf8Bytes c ++ acc) []

/-- Standard base64 alphabet. -/
def base64Chars : List Char :=
  "ABCDEFGHIJKLMNOPQRSTUVWXYZabcdefghijklmnopqrstuvwxyz0123456789+/".toList

/-- Character at an index of the base64 alphabet. -/
def b64c (n : Nat) : Char := base64Chars.getD n 'A'

/-- Embedding of base64.StdEncoding.EncodeToString on a byte list. -/
def base64Encode : List Nat → String
  | [] => ""
  | [a] => String.mk [b64c (a / 4), b64c (a % 4 * 16), '=', '=']
  | [a, b] => String.mk [b64c (a / 4), b64c (a % 4 * 16 + b / 16), b64c (b % 16 * 4), '=']
  | a :: b :: c :: rest =>
      String.mk [b64c (a / 4), b64c (a % 4 * 16 + b / 16), b64c (b % 16 * 4 + c / 64), b64c (c % 64)]
        ++ base64Encode rest

/-- The Basic-auth header value the source builds from the stored
credentials: base64 of userid:password, per RFC 2617. -/
def authHeaderValue (userId password : String) : String :=
  "Basic " ++ base64Encode (strBytes (userId ++ ":" ++ password))

/-- A request sent through http.NewRequest plus Do: method, full URL,
explicitly set headers, and the byte content of the body if one is
attached. -/
structure FullRequest where
  method : String
  url : String
  headers : List (String × String)
  body : Option (List Nat)
deriving DecidableEq, Repr

/-- Responses the registry would give to the requests PushLayer can
send: the blob existence probe, the upload-initiation POST, and the
finalize PUT. -/
structure PushLayerEnv where
  existsProbe : HttpResponse
  initiate : HttpResponse
  finalize : HttpResponse

/-- Embedding of PushLayer (registry client source).  The digest of the
layer file is computed before any network call (utils.ComputeFileDigest,
a pure function of the content, modelled here by passing the hex string
computed from the content); the existence probe short-circuits the push;
otherwise the upload is initiated and the single Location header value
is required.  The source then builds the chunk-transfer PATCH request
but its submission is commented out, so the PATCH is never sent: the
only remaining transfer is the finalize PUT to
location&digest=sha256:hex, carrying the content-range headers, the
Basic-auth header, and the layer content as body.  Returns the trace of
sent requests, the digest string (every return path of the source
returns it) and the error if any. -/
def PushLayer (repoName digestString : String) (content : List Nat)
    (userId password : String) (env : PushLayerEnv) :
    List FullRequest × String × Option GoError :=
  let probeReq : FullRequest := ⟨"HEAD", layerExistsUri repoName digestString, [], none⟩
  match LayerExistsInRepo env.existsProbe with
  | (_, some e) => ([probeReq], digestString, some e)
  | (true, none) => ([probeReq], digestString, none)
  | (false, none) =>
    let postReq : FullRequest := ⟨"POST", "v2/" ++ repoName ++ "/blobs/uploads/", [], none⟩
    match GenerateError env.initiate.statusCode (env.initiate.status ++ "; while starting layer upload") with
    | some e => ([probeReq, postReq], digestString, some e)
    | none =>
      match goHeaderIndex env.initiate.headers "Location" with
      | [] => ([probeReq, postReq], digestString, some (ConstructServerError "No Location header"))
      | [location] =>
        let fileSize : Int := content.length
        let headers : List (String × String) :=
          [("Content-Length", toString fileSize),
           ("Content-Range", "0-" ++ toString (fileSize - 1)),
           ("Content-Type", "application/octet-stream"),
           ("Authorization", authHeaderValue userId password)]
        let putReq : FullRequest :=
          ⟨"PUT", location ++ "&digest=sha256:" ++ digestString, headers, some content⟩
        (match GenerateError env.finalize.statusCode env.finalize.status with
         | some e => ([probeReq, postReq, putReq], digestString, some e)
         | none => ([probeReq, postReq, putReq], digestString, none))
      | _ :: _ :: _ => ([probeReq, postReq], digestString, some (ConstructServerError "Unexpected Location header"))

/-- One fsLayers entry of the manifest body PushManifest builds. -/
def blobSumEntry (d : String) : String :=
  "\x7b\"blobSum\": \"sha256:" ++ d ++ "\"\x7d"

/-- Loop of PushManifest that appends the fsLayers entries: a comma and
newline is prepended before every entry except the first (index 0). -/
def fsLayersLoop : Nat → List String → String
  | _, [] => ""
  | i, d :: rest =>
      (if 0 < i then ",\n" else "") ++ blobSumEntry d ++ fsLayersLoop (i + 1) rest

/-- Embedding of the manifest body string PushManifest builds. -/
def pushManifestBody (repoName tag : String) (layerDigestStrings : List String) : String :=
  "\x7b\"name\": \"" ++ repoName ++ "\", \"tag\": \"" ++ tag ++ "\", \"fsLayers\": ["
    ++ fsLayersLoop 0 layerDigestStrings ++ "]\x7d"

/-- Joining of a string list with the comma-newline separator, used to
state the order-preservation property of the manifest body. -/
def joinCommaNl : List String → String
  | [] => ""
  | [s] => s
  | s :: rest => s ++ ",\n" ++ joinCommaNl rest

/-- Embedding of the PUT request PushManifest (registry client source)
sends: URL built from the scheme, host, optional port and manifest URI,
the manifest body, and the length, JSON content-type and Basic-auth
headers.  The imageDigestString parameter is accepted, as in the source
signature, and does not occur in the result. -/
def PushManifestRequest (scheme hostname : String) (port : Nat)
    (userId password repoName tag imageDigestString : String)
    (layerDigestStrings : List String) : FullRequest :=
  let uri := "v2/" ++ repoName ++ "/manifests/" ++ tag
  let url := scheme ++ "://" ++ hostname
    ++ (if port ≠ 0 then ":" ++ toString port else "") ++ "/" ++ uri
  let manifest := pushManifestBody repoName tag layerDigestStrings
  let _ := imageDigestString
  ⟨"PUT", url,
   [("Content-Length", toString (strBytes manifest).length),
    ("Content-Type", "application/json; charset=utf-8"),
    ("Authorization", authHeaderValue userId password)],
   some (strBytes manifest)⟩


lemma strAppendAssoc (a b c : String) : a ++ b ++ c = a ++ (b ++ c) := by
  apply String.ext
  simp

lemma collectLayerMaps_objs (maps : List (List (String × JsonVal))) :
    collectLayerMaps (maps.map JsonVal.obj) = Except.ok maps := by
  induction maps with
  | nil => rfl
  | cons m rest ih => simp [collectLayerMaps, ih]

/-- C4: the name validator does not implement the documented rule: the
component "a.b" is in the documented language yet rejected by the code
(its character class lacks the period), while "-" is accepted by the
code yet outside the documented language; no total-length or
slash-decomposition check is applied by the code either. -/
theorem C4_name_validator_contradicts_documented_rule :
    dockerNameSpecAccepts "a.b" = true
    ∧ NamePartConformsToDockerRules "a.b"
        = some (ConstructServerError "Name does not conform to docker rules")
    ∧ dockerNameSpecAccepts "-" = false
    ∧ NamePartConformsToDockerRules "-" = none := by
  refine ⟨by decide, by decide, by decide, by decide⟩

/-- Manifest GET response with a success status, a well-formed manifest
body, and no Docker-Content-Digest header. -/
def c2Response : HttpResponse :=
  ⟨200, "200 OK", [],
   ⟨JsonVal.obj [("fsLayers", JsonVal.arr [JsonVal.obj [("blobSum", JsonVal.str "sha256:aa")]])], false⟩⟩

/-- C2: on a manifest GET response whose header set has no value for
Docker-Content-Digest, GetImageInfo does not treat the digest as absent:
it indexes the nil header slice at position 0 and crashes with a Go
runtime panic. -/
theorem C2_missing_digest_header_is_a_crash :
    GetImageInfo c2Response = GetImageInfoOutcome.crash "runtime error: index out of range" := rfl

/-- Manifest body whose single fsLayers element carries a numeric
blobSum. -/
def c3Body : RespBody :=
  ⟨JsonVal.obj [("fsLayers", JsonVal.arr [JsonVal.obj [("blobSum", JsonVal.num 3)]])], false⟩

/-- C3 counterexample: a manifest body whose fsLayers element carries a
blobSum that is a number is accepted by parseManifest, which returns the
layer map unchanged instead of a malformed-manifest error. -/
theorem C3_cex_numeric_blobSum_accepted :
    parseManifest c3Body = Except.ok [[("blobSum", JsonVal.num 3)]] := rfl

/-- C3 amended: parseManifest validates only the fsLayers structure —
missing fsLayers, a non-array fsLayers, or a non-object element each
fail with an error naming the offending field, while any list of object
elements is accepted unchanged, with no blobSum check. -/
theorem C3_parseManifest_checks_structure_only :
    (∀ fields, goMapIndex fields "fsLayers" = none →
      parseManifest ⟨JsonVal.obj fields, false⟩
        = Except.error (ConstructServerError "Did not find fsLayers field in body"))
    ∧ (∀ fields s, goMapIndex fields "fsLayers" = some (JsonVal.str s) →
      parseManifest ⟨JsonVal.obj fields, false⟩
        = Except.error (ConstructServerError "Type of layer description is string"))
    ∧ (∀ fields maps, goMapIndex fields "fsLayers" = some (JsonVal.arr (maps.map JsonVal.obj)) →
      parseManifest ⟨JsonVal.obj fields, false⟩ = Except.ok maps)
    ∧ parseManifest ⟨JsonVal.obj [("fsLayers", JsonVal.arr [JsonVal.num 1])], false⟩
        = Except.error (ConstructServerError "Type of layer object is float64") := by
  refine ⟨?_, ?_, ?_, rfl⟩
  · intro fields h
    simp [parseManifest, ParseResponseBodyToMap, h]
  · intro fields s h
    simp [parseManifest, ParseResponseBodyToMap, h, jsonTypeName]
  · intro fields maps h
    simp [parseManifest, ParseResponseBodyToMap, h, collectLayerMaps_objs]

/-- C3 witness: the amended parseManifest characterization applied to
concrete bodies. -/
theorem C3_witness :
    parseManifest ⟨JsonVal.obj [("other", JsonVal.num 1)], false⟩
      = Except.error (ConstructServerError "Did not find fsLayers field in body")
    ∧ parseManifest ⟨JsonVal.obj [("fsLayers", JsonVal.str "x")], false⟩
      = Except.error (ConstructServerError "Type of layer description is string")
    ∧ parseManifest ⟨JsonVal.obj [("fsLayers", JsonVal.arr [JsonVal.obj [("blobSum", JsonVal.str "sha256:aa")]])], false⟩
      = Except.ok [[("blobSum", JsonVal.str "sha256:aa")]] := by
  refine ⟨C3_parseManifest_checks_structure_only.1 _ rfl,
          C3_parseManifest_checks_structure_only.2.1 _ "x" rfl,
          C3_parseManifest_checks_structure_only.2.2.1 _ [[("blobSum", JsonVal.str "sha256:aa")]] rfl⟩

/-- Archive index with two repository entries. -/
def c5IndexTwoRepos : JsonVal :=
  JsonVal.obj [("r1", JsonVal.obj [("t1", JsonVal.str "d1")]),
               ("r2", JsonVal.obj [("t2", JsonVal.str "d2")])]

/-- Archive index with zero repository entries. -/
def c5IndexNoRepos : JsonVal := JsonVal.obj []

/-- Archive index with one repository carrying two tag entries. -/
def c5IndexTwoTags : JsonVal :=
  JsonVal.obj [("r1", JsonVal.obj [("t1", JsonVal.str "d1"), ("t2", JsonVal.str "d2")])]

/-- Archive index with one repository carrying zero tag entries. -/
def c5IndexNoTags : JsonVal := JsonVal.obj [("r1", JsonVal.obj [])]

/-- Collaborator results for the PushImage tail in which every layer
push and the manifest push would succeed. -/
def c5Env : PushImageEnv := ⟨fun _ => Except.ok "ld", Except.ok ()⟩

/-- C5: an archive index with zero or two entries in the repository map
or the tag map is rejected with an error, but the temporary staging
directory is not released on any of those error exits — the deferred
removal is commented out in the source and removal happens only on the
success return. -/
theorem C5_bad_index_rejected_but_tempdir_survives :
    (pushImageAfterUnpack c5IndexTwoRepos ["l1"] c5Env).result
      = Except.error (ConstructServerError "More than one entry found in repository map for image")
    ∧ (pushImageAfterUnpack c5IndexTwoRepos ["l1"] c5Env).tempDirRemoved = false
    ∧ (pushImageAfterUnpack c5IndexNoRepos ["l1"] c5Env).result
      = Except.error (ConstructServerError "No entries found in repository map for image")
    ∧ (pushImageAfterUnpack c5IndexNoRepos ["l1"] c5Env).tempDirRemoved = false
    ∧ (pushImageAfterUnpack c5IndexTwoTags ["l1"] c5Env).result
      = Except.error (ConstructServerError "More than one entry found in tag map for repo")
    ∧ (pushImageAfterUnpack c5IndexTwoTags ["l1"] c5Env).tempDirRemoved = false
    ∧ (pushImageAfterUnpack c5IndexNoTags ["l1"] c5Env).result
      = Except.error (ConstructServerError "No entries found in tag map for repo")
    ∧ (pushImageAfterUnpack c5IndexNoTags ["l1"] c5Env).tempDirRemoved = false
    ∧ (pushImageAfterUnpack (JsonVal.obj [("r1", JsonVal.obj [("t1", JsonVal.str "d1")])]) ["l1"] c5Env).result
      = Except.ok ()
    ∧ (pushImageAfterUnpack (JsonVal.obj [("r1", JsonVal.obj [("t1", JsonVal.str "d1")])]) ["l1"] c5Env).tempDirRemoved
      = true := by
  exact ⟨rfl, rfl, rfl, rfl, rfl, rfl, rfl, rfl, rfl, rfl⟩

/-- C6: DeleteImage closes the manifest response body before parsing it,
so the parse always fails on the closed body (or the status check fails
first); on every environment the only request ever sent is the manifest
GET — no layer blob DELETE and no manifest DELETE is ever issued — and
the operation always returns an error. -/
theorem C6_deleteImage_never_deletes (repoName tag : String) (env : DeleteImageEnv) :
    (DeleteImage repoName tag env).1
      = [⟨"GET", "v2/" ++ repoName ++ "/manifests/" ++ tag⟩]
    ∧ exceptIsError (DeleteImage repoName tag env).2 = true := by
  unfold DeleteImage
  cases h : GenerateError env.manifestGet.statusCode (env.manifestGet.status ++ "; while deleting image") with
  | some e => simp [h, exceptIsError]
  | none => simp [h, parseManifest, ParseResponseBodyToMap, exceptIsError]

/-- C10: the manifest PUT request is the same for any two values of the
imageDigestString argument when all other arguments agree — the image
identifier taken from the archive index has no effect on what is
published. -/
theorem C10_pushManifest_ignores_imageDigest (scheme hostname : String) (port : Nat)
    (userId password repoName tag d1 d2 : String) (layerDigestStrings : List String) :
    PushManifestRequest scheme hostname port userId password repoName tag d1 layerDigestStrings
      = PushManifestRequest scheme hostname port userId password repoName tag d2 layerDigestStrings := rfl

lemma strEmptyAppend (s : String) : "" ++ s = s := by
  apply String.ext
  simp

lemma strAppendEmpty (s : String) : s ++ "" = s := by
  apply String.ext
  simp

lemma fsLayersLoop_pos (ds : List String) :
    ∀ i j : Nat, fsLayersLoop (i + 1) ds = fsLayersLoop (j + 1) ds := by
  induction ds with
  | nil => intro i j; rfl
  | cons d rest ih =>
    intro i j
    simp only [fsLayersLoop, Nat.succ_pos, if_pos]
    rw [ih (i + 1) (j + 1)]

lemma fsLayersLoop_zero (ds : List String) :
    fsLayersLoop 0 ds = joinCommaNl (ds.map blobSumEntry) := by
  induction ds with
  | nil => rfl
  | cons d rest ih =>
    cases rest with
    | nil =>
      simp only [fsLayersLoop, joinCommaNl, List.map_cons, List.map_nil]
      norm_num
    | cons e rest2 =>
      have hpos : fsLayersLoop 2 rest2 = fsLayersLoop 1 rest2 := fsLayersLoop_pos rest2 1 0
      simp only [fsLayersLoop, List.map_cons, joinCommaNl] at ih ⊢
      norm_num at ih ⊢
      rw [hpos, ← ih]
      simp [strAppendAssoc]

/-- C9: the manifest body built for publishing consists of the name and
tag fields followed by one blobSum entry per supplied layer digest, in
the supplied order, for every list of digests (no count limit). -/
theorem C9_manifest_body_shape (repoName tag : String) (layerDigestStrings : List String) :
    pushManifestBody repoName tag layerDigestStrings
      = "\x7b\"name\": \"" ++ repoName ++ "\", \"tag\": \"" ++ tag ++ "\", \"fsLayers\": ["
        ++ joinCommaNl (layerDigestStrings.map blobSumEntry) ++ "]\x7d"
    ∧ (layerDigestStrings.map blobSumEntry).length = layerDigestStrings.length := by
  constructor
  · simp only [pushManifestBody, fsLayersLoop_zero]
  · simp

/-- C7: both existence probes map an HTTP 404 response to false with no
error, a success status to true with no error, and any other status to
an error carrying the status code and reason text. -/
theorem C7_existence_probes (resp : HttpResponse) :
    (resp.statusCode = 404 →
      ImageExists resp = (false, none) ∧ LayerExistsInRepo resp = (false, none))
    ∧ (200 ≤ resp.statusCode → resp.statusCode ≤ 299 →
      ImageExists resp = (true, none) ∧ LayerExistsInRepo resp = (true, none))
    ∧ (resp.statusCode ≠ 404 → ¬ (200 ≤ resp.statusCode ∧ resp.statusCode ≤ 299) →
      ImageExists resp
        = (false, some (GoError.regErr resp.statusCode (resp.status ++ "; while checking if image exists")))
      ∧ LayerExistsInRepo resp
        = (false, some (GoError.regErr resp.statusCode (resp.status ++ "; while checking if layer exists")))) := by
  refine ⟨?_, ?_, ?_⟩
  · intro h
    constructor <;> simp [ImageExists, LayerExistsInRepo, h]
  · intro h1 h2
    have h404 : resp.statusCode ≠ 404 := by omega
    constructor <;> simp [ImageExists, LayerExistsInRepo, GenerateError, h404, h1, h2]
  · intro h404 hns
    constructor <;> simp [ImageExists, LayerExistsInRepo, GenerateError, h404, hns]

/-- C7 witness: the probe semantics at concrete 404, 200 and 500
responses. -/
theorem C7_witness :
    ImageExists ⟨404, "404 Not Found", [], ⟨JsonVal.null, false⟩⟩ = (false, none)
    ∧ LayerExistsInRepo ⟨404, "404 Not Found", [], ⟨JsonVal.null, false⟩⟩ = (false, none)
    ∧ ImageExists ⟨200, "200 OK", [], ⟨JsonVal.null, false⟩⟩ = (true, none)
    ∧ LayerExistsInRepo ⟨200, "200 OK", [], ⟨JsonVal.null, false⟩⟩ = (true, none)
    ∧ ImageExists ⟨500, "500 Internal Server Error", [], ⟨JsonVal.null, false⟩⟩
      = (false, some (GoError.regErr 500 ("500 Internal Server Error" ++ "; while checking if image exists")))
    ∧ LayerExistsInRepo ⟨500, "500 Internal Server Error", [], ⟨JsonVal.null, false⟩⟩
      = (false, some (GoError.regErr 500 ("500 Internal Server Error" ++ "; while checking if layer exists"))) := by
  refine ⟨((C7_existence_probes ⟨404, "404 Not Found", [], ⟨JsonVal.null, false⟩⟩).1 rfl).1,
          ((C7_existence_probes ⟨404, "404 Not Found", [], ⟨JsonVal.null, false⟩⟩).1 rfl).2,
          ((C7_existence_probes ⟨200, "200 OK", [], ⟨JsonVal.null, false⟩⟩).2.1 (by decide) (by decide)).1,
          ((C7_existence_probes ⟨200, "200 OK", [], ⟨JsonVal.null, false⟩⟩).2.1 (by decide) (by decide)).2,
          ((C7_existence_probes ⟨500, "500 Internal Server Error", [], ⟨JsonVal.null, false⟩⟩).2.2 (by decide) (by decide)).1,
          ((C7_existence_probes ⟨500, "500 Internal Server Error", [], ⟨JsonVal.null, false⟩⟩).2.2 (by decide) (by decide)).2⟩

/-- Probe response for a layer the registry does not yet hold. -/
def c1Probe : HttpResponse := ⟨404, "404 Not Found", [], ⟨JsonVal.null, false⟩⟩

/-- Upload-initiation response carrying exactly one Location value. -/
def c1Initiate : HttpResponse :=
  ⟨202, "202 Accepted", [("Location", ["http://reg/upload?x=1"])], ⟨JsonVal.null, false⟩⟩

/-- Finalize response with a created status. -/
def c1Finalize : HttpResponse := ⟨201, "201 Created", [], ⟨JsonVal.null, false⟩⟩

/-- C1: on a push that does not short-circuit, PushLayer sends exactly
the HEAD probe, the initiation POST and the finalize PUT — no PATCH
request is ever sent, because the source comments out the submission of
the transfer request it builds; the layer content and the content-range,
content-type and Basic-auth headers travel on the finalize PUT instead. -/
theorem C1_transfer_patch_never_sent :
    PushLayer "r" "abc" [1, 2, 3] "u" "p" ⟨c1Probe, c1Initiate, c1Finalize⟩
      = ([⟨"HEAD", "v2/r/blobs/abc", [], none⟩,
          ⟨"POST", "v2/r/blobs/uploads/", [], none⟩,
          ⟨"PUT", "http://reg/upload?x=1&digest=sha256:abc",
            [("Content-Length", "3"), ("Content-Range", "0-2"),
             ("Content-Type", "application/octet-stream"),
             ("Authorization", "Basic dTpw")],
            some [1, 2, 3]⟩],
         "abc", none) := by rfl

/-- C8: when the existence probe for the locally computed digest comes
back with a success status, PushLayer sends only that probe — no
initiation POST, no PATCH, no PUT — and returns the locally computed
digest; and on every environment whatsoever the digest PushLayer returns
is the locally computed one, so a second push of identical content
returns the same digest as the first. -/
theorem C8_dedup_short_circuit (repoName digestString : String) (content : List Nat)
    (userId password : String) (env : PushLayerEnv)
    (h1 : 200 ≤ env.existsProbe.statusCode) (h2 : env.existsProbe.statusCode ≤ 299) :
    PushLayer repoName digestString content userId password env
      = ([⟨"HEAD", layerExistsUri repoName digestString, [], none⟩], digestString, none)
    ∧ ∀ env2 : PushLayerEnv,
        (PushLayer repoName digestString content userId password env2).2.1 = digestString := by
  constructor
  · have h404 : env.existsProbe.statusCode ≠ 404 := by omega
    have hex : LayerExistsInRepo env.existsProbe = (true, none) := by
      simp [LayerExistsInRepo, GenerateError, h404, h1, h2]
    unfold PushLayer
    rw [hex]
  · intro env2
    unfold PushLayer
    repeat' split
    all_goals rfl

/-- Environment in which the existence probe reports the layer already
present. -/
def c8ProbeEnv : PushLayerEnv :=
  ⟨⟨200, "200 OK", [], ⟨JsonVal.null, false⟩⟩, c1Initiate, c1Finalize⟩

/-- C8 witness: the short-circuit at a concrete already-present layer,
and the returned digest on a concrete full-upload environment. -/
theorem C8_witness :
    PushLayer "r" "abc" [1, 2] "u" "p" c8ProbeEnv
      = ([⟨"HEAD", layerExistsUri "r" "abc", [], none⟩], "abc", none)
    ∧ (PushLayer "r" "abc" [1, 2] "u" "p" ⟨c1Probe, c1Initiate, c1Finalize⟩).2.1 = "abc" := by
  exact ⟨(C8_dedup_short_circuit "r" "abc" [1, 2] "u" "p" c8ProbeEnv (by decide) (by decide)).1,
         (C8_dedup_short_circuit "r" "abc" [1, 2] "u" "p" c8ProbeEnv (by decide) (by decide)).2
           ⟨c1Probe, c1Initiate, c1Finalize⟩⟩
